import Mathlib

/-!
Shallow embedding of the Ourobos WASM core (src/wasm/rust/src/lib.rs).

Modelling conventions:
- Rust `f64` is embedded as `ℚ` (exact rational arithmetic following the
  source's formulas); `u64`/`usize` as `Nat`.
- A Rust slice/`Vec` index assignment `v[i] = x` panics when `i` is out of
  range; such operations are embedded in `Option`, with `none` standing for
  the panic. Operations that cannot panic are total functions.
- `Result<T, JsValue>` is embedded as `Except String T`.
- The JSON layer (serde) is abstracted: serialization of an `OrganismState`
  produces the record of its seven serialized scalar fields (the
  `state_vector` field carries `serde(skip)`, so it is neither written nor
  read back; deserialization fills it with the `Vec` type default, the empty
  list). Registry JSON is abstracted as the two optional parsed
  sections (`rules`, `executionOrder`).
- External time sources (`js_sys::Date::now()`) are injected as explicit
  arguments.
-/

/-- `OrganismState` from lib.rs: core metrics, evolution parameters and the
dense numeric `state_vector`. -/
structure OrganismState where
  population : ℚ
  energy : ℚ
  generation : Nat
  age : Nat
  mutation_rate : ℚ
  selection_pressure : ℚ
  adaptation_score : ℚ
  state_vector : List ℚ
deriving DecidableEq

/-- Rust `v[i] = x` on a `Vec`: in-range assignment, panic (`none`) otherwise. -/
def setIdx? (l : List ℚ) (i : Nat) (x : ℚ) : Option (List ℚ) :=
  if i < l.length then some (l.set i x) else none

/-- `OrganismState::new`: default construction (lib.rs lines 29-40). -/
def OrganismState.new : OrganismState :=
  { population := 100
    energy := 1000
    generation := 0
    age := 0
    mutation_rate := 1/100
    selection_pressure := 1/2
    adaptation_score := 0
    state_vector := [100, 1000, 1/100] }

/-- `OrganismState::calculate_adaptation_score` (lib.rs lines 82-88). -/
def OrganismState.calculate_adaptation_score (s : OrganismState) : ℚ :=
  (min (s.population / 100) 2 + min (s.energy / 1000) 1
    + min ((s.age : ℚ) / 100) 1) / 3

/-- `OrganismState::step` (lib.rs lines 51-79): age increment, growth,
consumption using the post-growth population, regeneration, clamping, vector
sync (which panics when `state_vector` is shorter than 3), adaptation-score
recomputation. Returns the updated state and the returned score. -/
def OrganismState.step (s : OrganismState) (delta_time : ℚ) :
    Option (OrganismState × ℚ) :=
  let age1 := s.age + 1
  let growth_rate := s.energy / 1000 * (1 - s.mutation_rate)
  let population1 := s.population + s.population * growth_rate * delta_time
  let energy_consumption := population1 * (1/10) * delta_time
  let energy1 := s.energy - energy_consumption
  let energy_regen := 10 * delta_time
  let energy2 := energy1 + energy_regen
  let population2 := max population1 1
  let energy3 := min (max energy2 0) 10000
  match setIdx? s.state_vector 0 population2 with
  | none => none
  | some sv0 =>
  match setIdx? sv0 1 energy3 with
  | none => none
  | some sv1 =>
  match setIdx? sv1 2 s.mutation_rate with
  | none => none
  | some sv2 =>
    let s1 : OrganismState :=
      { s with age := age1, population := population2, energy := energy3,
               state_vector := sv2 }
    let score := s1.calculate_adaptation_score
    some ({ s1 with adaptation_score := score }, score)

/-- `OrganismState::set_population` (lib.rs lines 145-148): clamp below at 0,
then sync slot 0 of the state vector (panics when the vector is empty). -/
def OrganismState.set_population (s : OrganismState) (value : ℚ) :
    Option OrganismState :=
  let p := max value 0
  (setIdx? s.state_vector 0 p).map
    (fun sv => { s with population := p, state_vector := sv })

/-- `OrganismState::set_energy` (lib.rs lines 151-154): clamp below at 0 (no
upper clamp in the source), then sync slot 1 of the state vector. -/
def OrganismState.set_energy (s : OrganismState) (value : ℚ) :
    Option OrganismState :=
  let e := max value 0
  (setIdx? s.state_vector 1 e).map
    (fun sv => { s with energy := e, state_vector := sv })

/-- `OrganismState::set_generation` (lib.rs lines 157-159). -/
def OrganismState.set_generation (s : OrganismState) (value : Nat) :
    OrganismState :=
  { s with generation := value }

/-- `OrganismState::set_mutation_rate` (lib.rs lines 162-165): clamp to
[0, 1], then sync slot 2 of the state vector. -/
def OrganismState.set_mutation_rate (s : OrganismState) (value : ℚ) :
    Option OrganismState :=
  let m := min (max value 0) 1
  (setIdx? s.state_vector 2 m).map
    (fun sv => { s with mutation_rate := m, state_vector := sv })

/-- `OrganismState::set_selection_pressure` (lib.rs lines 168-170). -/
def OrganismState.set_selection_pressure (s : OrganismState) (value : ℚ) :
    OrganismState :=
  { s with selection_pressure := min (max value 0) 1 }

/-- `OrganismState::get_state_vector` (lib.rs lines 174-176). -/
def OrganismState.get_state_vector (s : OrganismState) : List ℚ :=
  s.state_vector

/-- `OrganismState::set_state_vector` (lib.rs lines 180-187): when the given
vector has length at least 3, overwrite the three scalars from its first
entries verbatim and replace the stored vector wholesale; otherwise do
nothing. -/
def OrganismState.set_state_vector (s : OrganismState) (vector : List ℚ) :
    OrganismState :=
  if h : 3 ≤ vector.length then
    { s with population := vector.get ⟨0, by omega⟩
             energy := vector.get ⟨1, by omega⟩
             mutation_rate := vector.get ⟨2, by omega⟩
             state_vector := vector }
  else s

/-- The record of the seven fields serde serializes for `OrganismState`
(`state_vector` carries `serde(skip)`). -/
structure Snapshot where
  population : ℚ
  energy : ℚ
  generation : Nat
  age : Nat
  mutation_rate : ℚ
  selection_pressure : ℚ
  adaptation_score : ℚ
deriving DecidableEq

/-- `OrganismState::get_snapshot` (lib.rs lines 92-95), with the JSON text
abstracted to the record of serialized fields. -/
def OrganismState.get_snapshot (s : OrganismState) : Snapshot :=
  { population := s.population
    energy := s.energy
    generation := s.generation
    age := s.age
    mutation_rate := s.mutation_rate
    selection_pressure := s.selection_pressure
    adaptation_score := s.adaptation_score }

/-- `OrganismState::load_snapshot` (lib.rs lines 99-105) on a successfully
parsed snapshot: the whole state is replaced by the deserialized value, whose
`state_vector` is the `serde(skip)` type default — the empty list. -/
def OrganismState.load_snapshot (_s : OrganismState) (snap : Snapshot) :
    OrganismState :=
  { population := snap.population
    energy := snap.energy
    generation := snap.generation
    age := snap.age
    mutation_rate := snap.mutation_rate
    selection_pressure := snap.selection_pressure
    adaptation_score := snap.adaptation_score
    state_vector := [] }

/-- `OrganismState::init_from_config` (lib.rs lines 44-47) on a successfully
parsed configuration: same deserialization path as `load_snapshot`. -/
def OrganismState.init_from_config (snap : Snapshot) : OrganismState :=
  OrganismState.new.load_snapshot snap

/-- `Rule` from lib.rs lines 205-212. -/
structure Rule where
  id : String
  lisp_code : String
  execution_count : Nat
  total_execution_time_ms : ℚ
  last_execution_time_ms : ℚ
  created_at : Nat
deriving DecidableEq

/-- `RuleRegistry` from lib.rs lines 198-201. The `HashMap<String, Rule>` is
embedded as an association list with unique keys (insertion replaces in
place; map iteration order is unobservable through the embedded claims). -/
structure RuleRegistry where
  rules : List (String × Rule)
  execution_order : List String
deriving DecidableEq

/-- `HashMap::get`: first (and, with unique keys, only) binding of `id`. -/
def lookupRule (rs : List (String × Rule)) (id : String) : Option Rule :=
  (rs.find? (fun p => p.1 == id)).map (fun p => p.2)

/-- `HashMap::insert`: replace the binding of `id` if present, else add it. -/
def insertRule (rs : List (String × Rule)) (id : String) (r : Rule) :
    List (String × Rule) :=
  if rs.any (fun p => p.1 == id) then
    rs.map (fun p => if p.1 == id then (id, r) else p)
  else rs ++ [(id, r)]

/-- `RuleRegistry::new` (lib.rs lines 218-223). -/
def RuleRegistry.new : RuleRegistry :=
  { rules := [], execution_order := [] }

/-- `RuleRegistry::register_rule` (lib.rs lines 227-249): reject the empty
id; otherwise insert/replace the rule with zeroed statistics and
`created_at := now` (the injected current time), and append the id to
`execution_order` only when not already present. -/
def RuleRegistry.register_rule (reg : RuleRegistry) (id lisp_code : String)
    (now : Nat) : Except String RuleRegistry :=
  if id = "" then .error "Rule ID cannot be empty"
  else
    let rule : Rule :=
      { id := id, lisp_code := lisp_code, execution_count := 0,
        total_execution_time_ms := 0, last_execution_time_ms := 0,
        created_at := now }
    .ok { rules := insertRule reg.rules id rule
          execution_order :=
            if id ∈ reg.execution_order then reg.execution_order
            else reg.execution_order ++ [id] }

/-- `RuleRegistry::remove_rule` (lib.rs lines 253-256): retain the order
entries differing from `id`, remove the mapping entry, report presence. -/
def RuleRegistry.remove_rule (reg : RuleRegistry) (id : String) :
    RuleRegistry × Bool :=
  ({ rules := reg.rules.filter (fun p => p.1 != id)
     execution_order := reg.execution_order.filter (fun rid => rid != id) },
   (lookupRule reg.rules id).isSome)

/-- `RuleRegistry::get_rule_code` (lib.rs lines 260-262). -/
def RuleRegistry.get_rule_code (reg : RuleRegistry) (id : String) :
    Option String :=
  (lookupRule reg.rules id).map (fun r => r.lisp_code)

/-- `RuleRegistry::get_rule_ids` (lib.rs lines 266-268). -/
def RuleRegistry.get_rule_ids (reg : RuleRegistry) : List String :=
  reg.execution_order

/-- `RuleRegistry::get_rule_count` (lib.rs lines 272-274). -/
def RuleRegistry.get_rule_count (reg : RuleRegistry) : Nat :=
  reg.rules.length

/-- `RuleRegistry::record_execution` (lib.rs lines 278-287): bump the count,
accumulate and record the execution time of the named rule; error when the
id is unknown. -/
def RuleRegistry.record_execution (reg : RuleRegistry) (id : String)
    (execution_time_ms : ℚ) : Except String RuleRegistry :=
  match lookupRule reg.rules id with
  | some _ =>
      .ok { reg with rules := reg.rules.map (fun p =>
              if p.1 == id then
                (p.1, { p.2 with
                  execution_count := p.2.execution_count + 1
                  total_execution_time_ms :=
                    p.2.total_execution_time_ms + execution_time_ms
                  last_execution_time_ms := execution_time_ms })
              else p) }
  | none => .error ("Rule not found: " ++ id)

/-- `RuleRegistry::clear_stats` (lib.rs lines 345-351). -/
def RuleRegistry.clear_stats (reg : RuleRegistry) : RuleRegistry :=
  { reg with rules := reg.rules.map (fun p =>
      (p.1, { p.2 with execution_count := 0, total_execution_time_ms := 0,
                       last_execution_time_ms := 0 })) }

/-- `RuleRegistry::import_registry` (lib.rs lines 367-384) with the JSON
layer abstracted: each of the two sections is independently either absent
(`none`) or parsed (`some`); a present section replaces the corresponding
field wholesale, an absent one leaves it untouched. -/
def RuleRegistry.import_registry (reg : RuleRegistry)
    (rulesSection : Option (List (String × Rule)))
    (orderSection : Option (List String)) : RuleRegistry :=
  { rules := rulesSection.getD reg.rules
    execution_order := orderSection.getD reg.execution_order }

/-- `apply_rule_logic` (lib.rs lines 423-432): when `params` is non-empty,
adjust the mutation rate through the public setter (which may panic on a
short state vector); return the adaptation score of the resulting state. -/
def apply_rule_logic (state : OrganismState) (params : List ℚ) :
    Option (OrganismState × ℚ) :=
  match params with
  | [] => some (state, state.adaptation_score)
  | adjustment :: _ =>
      match state.set_mutation_rate
          (state.mutation_rate + adjustment * (1/100)) with
      | none => none
      | some s1 => some (s1, s1.adaptation_score)

/-- `apply_rule` (lib.rs lines 396-419): look up the rule code (fail without
touching anything when absent), run the placeholder rule logic, record the
elapsed time `t1 - t0` (the injected start/end timestamps). The result
carries the final registry and state alongside the returned value; `none`
stands for a panic inside the rule logic. -/
def apply_rule (registry : RuleRegistry) (state : OrganismState)
    (rule_id : String) (params : List ℚ) (t0 t1 : ℚ) :
    Option (Except String ℚ × RuleRegistry × OrganismState) :=
  match registry.get_rule_code rule_id with
  | none => some (.error ("Rule not found: " ++ rule_id), registry, state)
  | some _ =>
      match apply_rule_logic state params with
      | none => none
      | some (state1, result) =>
          match registry.record_execution rule_id (t1 - t0) with
          | .ok registry1 => some (.ok result, registry1, state1)
          | .error e => some (.error e, registry, state1)

/-- Invariant I3 of the spec: every id in `execution_order` has an entry in
`rules`, and every key of `rules` appears in `execution_order`. -/
def RuleRegistry.invariantI3 (reg : RuleRegistry) : Prop :=
  (∀ id ∈ reg.execution_order, (lookupRule reg.rules id).isSome = true) ∧
  (∀ p ∈ reg.rules, p.1 ∈ reg.execution_order)

/-- Registries reachable from `RuleRegistry::new` through the public
mutating operations, with `import_registry` restricted to inputs that supply
both sections and whose sections satisfy I3 between themselves (the claim
C5 as amended; unrestricted imports can break I3). -/
inductive RuleRegistry.Reachable : RuleRegistry → Prop
  | new : RuleRegistry.Reachable RuleRegistry.new
  | register {reg reg' : RuleRegistry} {id code : String} {now : Nat} :
      RuleRegistry.Reachable reg →
      reg.register_rule id code now = .ok reg' →
      RuleRegistry.Reachable reg'
  | remove {reg : RuleRegistry} {id : String} :
      RuleRegistry.Reachable reg →
      RuleRegistry.Reachable (reg.remove_rule id).1
  | record {reg reg' : RuleRegistry} {id : String} {t : ℚ} :
      RuleRegistry.Reachable reg →
      reg.record_execution id t = .ok reg' →
      RuleRegistry.Reachable reg'
  | clear {reg : RuleRegistry} :
      RuleRegistry.Reachable reg →
      RuleRegistry.Reachable reg.clear_stats
  | imp {reg : RuleRegistry} {rs : List (String × Rule)} {ord : List String} :
      RuleRegistry.Reachable reg →
      (∀ id ∈ ord, (lookupRule rs id).isSome = true) →
      (∀ p ∈ rs, p.1 ∈ ord) →
      RuleRegistry.Reachable (reg.import_registry (some rs) (some ord))

/-- Organism states reachable from default construction or a parsed
configuration through the public mutating operations; the panicking
operations contribute a successor only when they complete. -/
inductive OrganismState.Reachable : OrganismState → Prop
  | new : OrganismState.Reachable OrganismState.new
  | cfg (snap : Snapshot) :
      OrganismState.Reachable (OrganismState.init_from_config snap)
  | step {s s' : OrganismState} {dt x : ℚ} :
      OrganismState.Reachable s → s.step dt = some (s', x) →
      OrganismState.Reachable s'
  | set_population {s s' : OrganismState} {v : ℚ} :
      OrganismState.Reachable s → s.set_population v = some s' →
      OrganismState.Reachable s'
  | set_energy {s s' : OrganismState} {v : ℚ} :
      OrganismState.Reachable s → s.set_energy v = some s' →
      OrganismState.Reachable s'
  | set_mutation_rate {s s' : OrganismState} {v : ℚ} :
      OrganismState.Reachable s → s.set_mutation_rate v = some s' →
      OrganismState.Reachable s'
  | set_generation {s : OrganismState} {n : Nat} :
      OrganismState.Reachable s →
      OrganismState.Reachable (s.set_generation n)
  | set_selection_pressure {s : OrganismState} {v : ℚ} :
      OrganismState.Reachable s →
      OrganismState.Reachable (s.set_selection_pressure v)
  | load {s : OrganismState} (snap : Snapshot) :
      OrganismState.Reachable s →
      OrganismState.Reachable (s.load_snapshot snap)
  | set_state_vector {s : OrganismState} (v : List ℚ) :
      OrganismState.Reachable s →
      OrganismState.Reachable (s.set_state_vector v)

theorem setIdx?_eq_some {l : List ℚ} {i : Nat} {x : ℚ} {l' : List ℚ} :
    setIdx? l i x = some l' ↔ i < l.length ∧ l' = l.set i x := by
  unfold setIdx?
  by_cases h : i < l.length <;> simp [h, eq_comm]

theorem OrganismState.step_eq_none {s : OrganismState}
    (h : s.state_vector.length < 3) (dt : ℚ) : s.step dt = none := by
  rcases hsv : s.state_vector with _ | ⟨a, _ | ⟨b, _ | ⟨c, t⟩⟩⟩
  · simp [OrganismState.step, setIdx?, hsv]
  · simp [OrganismState.step, setIdx?, hsv]
  · simp [OrganismState.step, setIdx?, hsv]
  · rw [hsv] at h; simp at h; omega

theorem OrganismState.step_cons {s : OrganismState} {a b c : ℚ} {t : List ℚ}
    (hsv : s.state_vector = a :: b :: c :: t) (dt : ℚ) :
    s.step dt =
      (let population1 :=
        s.population + s.population
          * (s.energy / 1000 * (1 - s.mutation_rate)) * dt
       let population2 := max population1 1
       let energy3 := min (max (s.energy - population1 * (1/10) * dt
          + 10 * dt) 0) 10000
       let s1 : OrganismState :=
         { s with age := s.age + 1, population := population2,
                  energy := energy3,
                  state_vector :=
                    population2 :: energy3 :: s.mutation_rate :: t }
       some ({ s1 with
                adaptation_score := s1.calculate_adaptation_score },
             s1.calculate_adaptation_score)) := by
  simp [OrganismState.step, setIdx?, hsv]

theorem OrganismState.set_population_eq_some {s s' : OrganismState} {v : ℚ} :
    s.set_population v = some s' ↔
      0 < s.state_vector.length ∧
      s' = { s with population := max v 0,
                    state_vector := s.state_vector.set 0 (max v 0) } := by
  simp only [OrganismState.set_population, Option.map_eq_some',
    setIdx?_eq_some]
  constructor
  · rintro ⟨sv, ⟨hl, rfl⟩, rfl⟩; exact ⟨hl, rfl⟩
  · rintro ⟨hl, rfl⟩; exact ⟨_, ⟨hl, rfl⟩, rfl⟩

theorem OrganismState.set_energy_eq_some {s s' : OrganismState} {v : ℚ} :
    s.set_energy v = some s' ↔
      1 < s.state_vector.length ∧
      s' = { s with energy := max v 0,
                    state_vector := s.state_vector.set 1 (max v 0) } := by
  simp only [OrganismState.set_energy, Option.map_eq_some', setIdx?_eq_some]
  constructor
  · rintro ⟨sv, ⟨hl, rfl⟩, rfl⟩; exact ⟨hl, rfl⟩
  · rintro ⟨hl, rfl⟩; exact ⟨_, ⟨hl, rfl⟩, rfl⟩

theorem OrganismState.set_mutation_rate_eq_some {s s' : OrganismState}
    {v : ℚ} :
    s.set_mutation_rate v = some s' ↔
      2 < s.state_vector.length ∧
      s' = { s with mutation_rate := min (max v 0) 1,
                    state_vector :=
                      s.state_vector.set 2 (min (max v 0) 1) } := by
  simp only [OrganismState.set_mutation_rate, Option.map_eq_some',
    setIdx?_eq_some]
  constructor
  · rintro ⟨sv, ⟨hl, rfl⟩, rfl⟩; exact ⟨hl, rfl⟩
  · rintro ⟨hl, rfl⟩; exact ⟨_, ⟨hl, rfl⟩, rfl⟩

theorem OrganismState.step_some_shape {s s' : OrganismState} {dt x : ℚ}
    (h : s.step dt = some (s', x)) :
    ∃ t : List ℚ,
      s.state_vector.length = t.length + 3 ∧
      s'.state_vector =
        s'.population :: s'.energy :: s'.mutation_rate :: t ∧
      s'.age = s.age + 1 ∧
      s'.generation = s.generation ∧
      s'.mutation_rate = s.mutation_rate ∧
      s'.selection_pressure = s.selection_pressure ∧
      s'.population =
        max (s.population + s.population
          * (s.energy / 1000 * (1 - s.mutation_rate)) * dt) 1 ∧
      s'.energy =
        min (max (s.energy - (s.population + s.population
          * (s.energy / 1000 * (1 - s.mutation_rate)) * dt) * (1/10) * dt
            + 10 * dt) 0) 10000 ∧
      x = s'.adaptation_score := by
  rcases hsv : s.state_vector with _ | ⟨a, _ | ⟨b, _ | ⟨c, t⟩⟩⟩
  · rw [OrganismState.step_eq_none (by simp [hsv])] at h; exact absurd h (by simp)
  · rw [OrganismState.step_eq_none (by simp [hsv])] at h; exact absurd h (by simp)
  · rw [OrganismState.step_eq_none (by simp [hsv])] at h; exact absurd h (by simp)
  · rw [OrganismState.step_cons hsv] at h
    simp only [Option.some.injEq, Prod.mk.injEq] at h
    obtain ⟨h1, h2⟩ := h
    refine ⟨t, by simp [hsv], ?_⟩
    subst h1
    exact ⟨rfl, rfl, rfl, rfl, rfl, rfl, rfl, h2.symm⟩

theorem take_three_set {l : List ℚ} {p e m : ℚ} (h3 : 3 ≤ l.length)
    (hsync : l.take 3 = [p, e, m]) (x : ℚ) :
    (l.set 0 x).take 3 = [x, e, m] ∧
    (l.set 1 x).take 3 = [p, x, m] ∧
    (l.set 2 x).take 3 = [p, e, x] := by
  rcases l with _ | ⟨a, _ | ⟨b, _ | ⟨c, t⟩⟩⟩ <;> simp at h3 hsync ⊢
  obtain ⟨rfl, rfl, rfl⟩ := hsync
  simp

theorem OrganismState.reachable_sync {s : OrganismState}
    (h : s.Reachable) :
    s.state_vector = [] ∨
    (3 ≤ s.state_vector.length ∧
     s.state_vector.take 3 = [s.population, s.energy, s.mutation_rate]) := by
  induction h with
  | new => right; simp [OrganismState.new]
  | cfg snap => left; rfl
  | step hr hs ih =>
      right
      obtain ⟨t, _, hsv, _, _, _, _, _, _, _⟩ :=
        OrganismState.step_some_shape hs
      rw [hsv]
      simp
  | set_population hr hs ih =>
      right
      rw [OrganismState.set_population_eq_some] at hs
      obtain ⟨hl, rfl⟩ := hs
      rcases ih with h0 | ⟨h3, hsync⟩
      · rw [h0] at hl; simp at hl
      · exact ⟨by simp; omega, by simpa using (take_three_set h3 hsync _).1⟩
  | set_energy hr hs ih =>
      right
      rw [OrganismState.set_energy_eq_some] at hs
      obtain ⟨hl, rfl⟩ := hs
      rcases ih with h0 | ⟨h3, hsync⟩
      · rw [h0] at hl; simp at hl
      · exact ⟨by simp; omega, by simpa using (take_three_set h3 hsync _).2.1⟩
  | set_mutation_rate hr hs ih =>
      right
      rw [OrganismState.set_mutation_rate_eq_some] at hs
      obtain ⟨hl, rfl⟩ := hs
      rcases ih with h0 | ⟨h3, hsync⟩
      · rw [h0] at hl; simp at hl
      · exact ⟨by simp; omega,
          by simpa using (take_three_set h3 hsync _).2.2⟩
  | set_generation hr ih =>
      simpa [OrganismState.set_generation] using ih
  | set_selection_pressure hr ih =>
      simpa [OrganismState.set_selection_pressure] using ih
  | load snap hr ih => left; rfl
  | set_state_vector v hr ih =>
      by_cases h : 3 ≤ v.length
      · right
        rw [OrganismState.set_state_vector, dif_pos h]
        rcases v with _ | ⟨a, _ | ⟨b, _ | ⟨c, t⟩⟩⟩ <;> simp at h ⊢
      · rw [OrganismState.set_state_vector, dif_neg h]
        exact ih

theorem lookupRule_isSome_iff {rs : List (String × Rule)} {id : String} :
    (lookupRule rs id).isSome = true ↔ ∃ p ∈ rs, p.1 = id := by
  simp [lookupRule, List.find?_isSome]

theorem find?_map_replace {id : String} {r : Rule}
    (rs : List (String × Rule)) :
    ((rs.map (fun p => if p.1 == id then (id, r) else p)).find?
        (fun p => p.1 == id)) =
      ((rs.find? (fun p => p.1 == id)).map (fun _ => (id, r))) := by
  induction rs with
  | nil => rfl
  | cons q t ih =>
      by_cases hq : q.1 = id
      · rw [List.map_cons, if_pos (by simp [hq]),
          List.find?_cons_of_pos _ (by simp),
          List.find?_cons_of_pos _ (by simp [hq])]
        rfl
      · rw [List.map_cons, if_neg (by simp [hq]),
          List.find?_cons_of_neg _ (by simp [hq]),
          List.find?_cons_of_neg _ (by simp [hq])]
        exact ih

theorem find?_map_replace_ne {id id2 : String} {r : Rule} (h : id2 ≠ id)
    (rs : List (String × Rule)) :
    ((rs.map (fun p => if p.1 == id then (id, r) else p)).find?
        (fun p => p.1 == id2)) =
      (rs.find? (fun p => p.1 == id2)) := by
  have h1 : ¬ (id = id2) := fun he => h he.symm
  induction rs with
  | nil => rfl
  | cons q t ih =>
      by_cases hq : q.1 = id
      · rw [List.map_cons, if_pos (by simp [hq]),
          List.find?_cons_of_neg _ (by simp [h1]),
          List.find?_cons_of_neg _ (by simp [hq, h1])]
        exact ih
      · by_cases hq2 : q.1 = id2
        · rw [List.map_cons, if_neg (by simp [hq]),
            List.find?_cons_of_pos _ (by simp [hq2]),
            List.find?_cons_of_pos _ (by simp [hq2])]
        · rw [List.map_cons, if_neg (by simp [hq]),
            List.find?_cons_of_neg _ (by simp [hq2]),
            List.find?_cons_of_neg _ (by simp [hq2])]
          exact ih

theorem lookupRule_insertRule_self {rs : List (String × Rule)} {id : String}
    {r : Rule} : lookupRule (insertRule rs id r) id = some r := by
  unfold insertRule
  by_cases hany : rs.any (fun p => p.1 == id)
  · rw [if_pos hany]
    unfold lookupRule
    rw [find?_map_replace]
    rcases hf : rs.find? (fun p => p.1 == id) with _ | q
    · rw [List.find?_eq_none] at hf
      simp only [List.any_eq_true] at hany
      obtain ⟨p, hp, hpid⟩ := hany
      exact absurd hpid (hf p hp)
    · rw [hf]; rfl
  · rw [if_neg hany]
    unfold lookupRule
    rw [List.find?_append]
    have hnone : rs.find? (fun p => p.1 == id) = none := by
      rw [List.find?_eq_none]
      intro p hp hpe
      exact hany (List.any_eq_true.mpr ⟨p, hp, hpe⟩)
    simp [hnone]

theorem lookupRule_insertRule_ne {rs : List (String × Rule)}
    {id id2 : String} {r : Rule} (h : id2 ≠ id) :
    lookupRule (insertRule rs id r) id2 = lookupRule rs id2 := by
  unfold insertRule
  by_cases hany : rs.any (fun p => p.1 == id)
  · rw [if_pos hany]
    unfold lookupRule
    rw [find?_map_replace_ne h]
  · rw [if_neg hany]
    unfold lookupRule
    rw [List.find?_append]
    have h1 : ¬ (id = id2) := fun he => h he.symm
    simp [h1]

theorem mem_insertRule {rs : List (String × Rule)} {id : String} {r : Rule}
    {p : String × Rule} (hp : p ∈ insertRule rs id r) :
    p = (id, r) ∨ p ∈ rs := by
  unfold insertRule at hp
  by_cases hany : rs.any (fun p => p.1 == id)
  · rw [if_pos hany] at hp
    obtain ⟨q, hq, rfl⟩ := List.mem_map.mp hp
    by_cases hqid : q.1 = id
    · left; simp [hqid]
    · right; simpa [hqid] using hq
  · rw [if_neg hany] at hp
    rcases List.mem_append.mp hp with h1 | h1
    · right; exact h1
    · left; simpa using h1

theorem invariantI3_map_keys {reg : RuleRegistry}
    (h : reg.invariantI3) (f : String × Rule → String × Rule)
    (hf : ∀ p, (f p).1 = p.1) :
    RuleRegistry.invariantI3
      { rules := reg.rules.map f, execution_order := reg.execution_order } := by
  constructor
  · intro id2 hmem
    rw [lookupRule_isSome_iff]
    obtain ⟨p, hp, hpid⟩ := lookupRule_isSome_iff.mp (h.1 id2 hmem)
    exact ⟨f p, List.mem_map_of_mem f hp, by rw [hf]; exact hpid⟩
  · intro p hp
    obtain ⟨q, hq, rfl⟩ := List.mem_map.mp hp
    rw [hf]
    exact h.2 q hq

/-- C1 (corrected, counterexample): the claim says state_vector equals the
THREE-element sequence [population, energy, mutation_rate] after every step.
But `set_state_vector` accepts vectors longer than 3, and `step` only
rewrites slots 0-2: from the reachable state
`new().set_state_vector([1,2,3,4,5])`, `step(1.0)` completes and leaves a
5-element state_vector, which cannot equal any 3-element sequence. -/
theorem C1_counterexample :
    ((OrganismState.new.set_state_vector [1, 2, 3, 4, 5]).step 1).map
        (fun r => r.1.state_vector.length) = some 5 ∧
    ((OrganismState.new.set_state_vector [1, 2, 3, 4, 5]).step 1).map
        (fun r => [r.1.population, r.1.energy, r.1.mutation_rate].length) =
      some 3 := by
  constructor <;>
    norm_num [OrganismState.step, OrganismState.new,
      OrganismState.set_state_vector, setIdx?, min_def, max_def]

/-- C1 (corrected, amended): for every reachable state, immediately after a
step or scalar setter call that completes (does not panic), the FIRST THREE
elements of state_vector are [population, energy, mutation_rate]; the vector
may retain extra elements installed by set_state_vector, and on states whose
state_vector is shorter than 3 (e.g. the empty vector left by load_snapshot)
these operations panic instead of completing. -/
theorem C1_state_vector_take3_sync {s : OrganismState}
    (hr : s.Reachable) :
    (∀ (dt : ℚ) (r : OrganismState × ℚ), s.step dt = some r →
      r.1.state_vector.take 3 =
        [r.1.population, r.1.energy, r.1.mutation_rate]) ∧
    (∀ (v : ℚ) (s' : OrganismState), s.set_population v = some s' →
      s'.state_vector.take 3 =
        [s'.population, s'.energy, s'.mutation_rate]) ∧
    (∀ (v : ℚ) (s' : OrganismState), s.set_energy v = some s' →
      s'.state_vector.take 3 =
        [s'.population, s'.energy, s'.mutation_rate]) ∧
    (∀ (v : ℚ) (s' : OrganismState), s.set_mutation_rate v = some s' →
      s'.state_vector.take 3 =
        [s'.population, s'.energy, s'.mutation_rate]) := by
  refine ⟨?_, ?_, ?_, ?_⟩
  · intro dt r h
    obtain ⟨t, _, hsv, _⟩ := OrganismState.step_some_shape h
    rw [hsv]
    simp
  · intro v s' h
    have hr' := OrganismState.Reachable.set_population hr h
    rcases OrganismState.reachable_sync hr' with h0 | ⟨_, hsync⟩
    · rw [OrganismState.set_population_eq_some] at h
      obtain ⟨hl, rfl⟩ := h
      have h0' : s.state_vector = [] := by simpa using h0
      rw [h0'] at hl
      simp at hl
    · exact hsync
  · intro v s' h
    have hr' := OrganismState.Reachable.set_energy hr h
    rcases OrganismState.reachable_sync hr' with h0 | ⟨_, hsync⟩
    · rw [OrganismState.set_energy_eq_some] at h
      obtain ⟨hl, rfl⟩ := h
      have h0' : s.state_vector = [] := by simpa using h0
      rw [h0'] at hl
      simp at hl
    · exact hsync
  · intro v s' h
    have hr' := OrganismState.Reachable.set_mutation_rate hr h
    rcases OrganismState.reachable_sync hr' with h0 | ⟨_, hsync⟩
    · rw [OrganismState.set_mutation_rate_eq_some] at h
      obtain ⟨hl, rfl⟩ := h
      have h0' : s.state_vector = [] := by simpa using h0
      rw [h0'] at hl
      simp at hl
    · exact hsync

/-- C1 witness: concrete instance — set_energy(5.0) on the default state
succeeds and the first three state_vector slots match the scalars. -/
theorem C1_witness :
    (⟨100, 5, 0, 0, 1/100, 1/2, 0, [100, 5, 1/100]⟩ :
        OrganismState).state_vector.take 3 =
      [(⟨100, 5, 0, 0, 1/100, 1/2, 0, [100, 5, 1/100]⟩ :
          OrganismState).population,
       (⟨100, 5, 0, 0, 1/100, 1/2, 0, [100, 5, 1/100]⟩ :
          OrganismState).energy,
       (⟨100, 5, 0, 0, 1/100, 1/2, 0, [100, 5, 1/100]⟩ :
          OrganismState).mutation_rate] :=
  (C1_state_vector_take3_sync OrganismState.Reachable.new).2.2.1 5 _
    (by rw [OrganismState.set_energy_eq_some]
        exact ⟨by norm_num [OrganismState.new],
          by norm_num [OrganismState.new, OrganismState.mk.injEq, max_def]⟩)

/-- C2 (code_bug): the spec says `step` always runs to completion on every
reachable state, including one obtained from a successful load_snapshot.
But `state_vector` carries `serde(skip)`, so a loaded state has the empty
vector, and `step` then indexes `state_vector[0]` out of bounds and panics.
Evaluated here: load the snapshot of the default state (succeeds), then
`step(1.0)` panics (`none` in the embedding). -/
theorem C2_step_panics_after_load :
    (OrganismState.new.load_snapshot OrganismState.new.get_snapshot).Reachable ∧
    (OrganismState.new.load_snapshot OrganismState.new.get_snapshot).step 1 =
      none :=
  ⟨OrganismState.Reachable.load _ OrganismState.Reachable.new,
   OrganismState.step_eq_none (by simp [OrganismState.load_snapshot]) 1⟩

/-- C3 (corrected, counterexample): `set_energy` does NOT clamp to the
documented upper bound 10000: setting 20000 on the default state succeeds
and leaves energy = 20000 > 10000. -/
theorem C3_counterexample :
    (OrganismState.new.set_energy 20000).map OrganismState.energy =
      some 20000 ∧
    ¬ ((20000 : ℚ) ≤ 10000) :=
  ⟨by norm_num [OrganismState.set_energy, OrganismState.new, setIdx?,
      max_def],
   by norm_num⟩

/-- C3 (corrected, amended): after any completing `step` call, energy lies
in [0, 10000]; `set_energy` clamps its argument only from below at 0 (the
source applies `.max(0.0)` with no `.min(10000.0)`), so energy above 10000
is reachable through `set_energy`. -/
theorem C3_energy_clamp :
    (∀ (s : OrganismState) (dt : ℚ) (r : OrganismState × ℚ),
      s.step dt = some r → 0 ≤ r.1.energy ∧ r.1.energy ≤ 10000) ∧
    (∀ (s : OrganismState) (v : ℚ) (s' : OrganismState),
      s.set_energy v = some s' → s'.energy = max v 0) := by
  constructor
  · intro s dt r h
    obtain ⟨t, _, _, _, _, _, _, _, he, _⟩ := OrganismState.step_some_shape h
    rw [he]
    exact ⟨le_min (le_max_right _ _) (by norm_num), min_le_right _ _⟩
  · intro s v s' h
    rw [OrganismState.set_energy_eq_some] at h
    obtain ⟨_, rfl⟩ := h
    rfl

/-- C3 witness: concrete instances of both parts — a step from the default
state with delta_time 0, and set_energy(5.0) on the default state. -/
theorem C3_witness :
    (0 ≤ (⟨100, 1000, 0, 1, 1/100, 1/2, 67/100, [100, 1000, 1/100]⟩ :
        OrganismState).energy ∧
      (⟨100, 1000, 0, 1, 1/100, 1/2, 67/100, [100, 1000, 1/100]⟩ :
        OrganismState).energy ≤ 10000) ∧
    (⟨100, 5, 0, 0, 1/100, 1/2, 0, [100, 5, 1/100]⟩ :
        OrganismState).energy = max 5 0 :=
  ⟨C3_energy_clamp.1 OrganismState.new 0 (⟨100, 1000, 0, 1, 1/100, 1/2,
      67/100, [100, 1000, 1/100]⟩, 67/100)
    (by norm_num [OrganismState.step, OrganismState.new, setIdx?,
        OrganismState.calculate_adaptation_score, min_def, max_def]),
   C3_energy_clamp.2 OrganismState.new 5 _
    (by rw [OrganismState.set_energy_eq_some]
        exact ⟨by norm_num [OrganismState.new],
          by norm_num [OrganismState.new, OrganismState.mk.injEq, max_def]⟩)⟩

/-- C4 (corrected, counterexample): default construction sets
selection_pressure to 0.5, not 0, contradicting the claim that every field
other than population, energy, mutation_rate is zero. -/
theorem C4_counterexample :
    OrganismState.new.selection_pressure = 1/2 ∧ ((1/2 : ℚ) ≠ 0) :=
  ⟨rfl, by norm_num⟩

/-- C4 (corrected, amended): default construction yields population 100,
energy 1000, mutation_rate 0.01, generation 0, age 0, adaptation_score 0,
and selection_pressure 0.5. -/
theorem C4_default_values :
    OrganismState.new.population = 100 ∧
    OrganismState.new.energy = 1000 ∧
    OrganismState.new.mutation_rate = 1/100 ∧
    OrganismState.new.generation = 0 ∧
    OrganismState.new.age = 0 ∧
    OrganismState.new.adaptation_score = 0 ∧
    OrganismState.new.selection_pressure = 1/2 :=
  ⟨rfl, rfl, rfl, rfl, rfl, rfl, rfl⟩

/-- C5 (corrected, counterexample): `import_registry` with an input that
supplies only the `rules` section replaces the mapping but keeps the old
`execution_order`; on an empty registry this leaves a rule whose id is
absent from execution_order, violating Invariant I3. -/
theorem C5_counterexample :
    ¬ (RuleRegistry.new.import_registry
        (some [("a", ⟨"a", "(noop)", 0, 0, 0, 0⟩)]) none).invariantI3 := by
  simp [RuleRegistry.invariantI3, RuleRegistry.new,
    RuleRegistry.import_registry]

/-- C5 (corrected, amended): Invariant I3 (execution_order ids and rules
keys coincide) holds at every point observable between operations, for any
sequence of register, remove, record_execution, clear_stats, and of those
imports whose input supplies BOTH sections with mutually consistent id
sets; an import supplying only one section (or inconsistent sections) can
break I3. -/
theorem C5_registry_invariantI3 {reg : RuleRegistry}
    (h : reg.Reachable) : reg.invariantI3 := by
  induction h with
  | new =>
      constructor
      · intro id hid; simp [RuleRegistry.new] at hid
      · intro p hp; simp [RuleRegistry.new] at hp
  | @register reg reg' id code now hr hs ih =>
      rw [RuleRegistry.register_rule] at hs
      split at hs
      · exact absurd hs (by simp)
      · simp only [Except.ok.injEq] at hs
        subst hs
        constructor
        · intro id2 hmem
          by_cases hid : id2 = id
          · subst hid
            rw [lookupRule_insertRule_self]
            rfl
          · rw [lookupRule_insertRule_ne hid]
            apply ih.1
            by_cases hin : id ∈ reg.execution_order
            · rw [if_pos hin] at hmem; exact hmem
            · rw [if_neg hin] at hmem
              rcases List.mem_append.mp hmem with h1 | h1
              · exact h1
              · simp at h1; exact absurd h1 hid
        · intro p hp
          have hidin : id ∈ (if id ∈ reg.execution_order
              then reg.execution_order
              else reg.execution_order ++ [id]) := by
            by_cases hin : id ∈ reg.execution_order <;> simp [hin]
          rcases mem_insertRule hp with rfl | hp'
          · exact hidin
          · have hpo := ih.2 p hp'
            by_cases hin : id ∈ reg.execution_order
            · rw [if_pos hin]; exact hpo
            · rw [if_neg hin]; exact List.mem_append_left _ hpo
  | @remove reg id hr ih =>
      constructor
      · intro id2 hmem
        obtain ⟨hord, hne⟩ := List.mem_filter.mp hmem
        rw [bne_iff_ne] at hne
        rw [lookupRule_isSome_iff]
        obtain ⟨p, hp, hpid⟩ := lookupRule_isSome_iff.mp (ih.1 id2 hord)
        exact ⟨p, List.mem_filter.mpr ⟨hp, by rw [bne_iff_ne, hpid]; exact hne⟩,
          hpid⟩
      · intro p hp
        obtain ⟨hpr, hne⟩ := List.mem_filter.mp hp
        exact List.mem_filter.mpr ⟨ih.2 p hpr, hne⟩
  | @record reg reg' id t hr hs ih =>
      rw [RuleRegistry.record_execution] at hs
      split at hs
      · simp only [Except.ok.injEq] at hs
        subst hs
        exact invariantI3_map_keys ih _
          (by intro p; by_cases h : (p.1 == id) = true <;> simp [h])
      · exact absurd hs (by simp)
  | @clear reg hr ih =>
      exact invariantI3_map_keys ih _ (fun p => rfl)
  | @imp reg rs ord hr h1 h2 ih =>
      exact ⟨h1, h2⟩

/-- C5 witness: the empty registry is reachable and satisfies I3. -/
theorem C5_witness : RuleRegistry.new.invariantI3 :=
  C5_registry_invariantI3 RuleRegistry.Reachable.new

/-- C6 (confirmed): from the default state, step(1.0) yields population
exactly 199, energy exactly 990.1 (= 9901/10), age 1, and returns the
adaptation score (min(1.99,2) + min(0.9901,1) + min(0.01,1)) / 3
= 0.9967; the energy value 990.1 = 1000 - 199*0.1*1 + 10*1 shows the
consumption term used the post-growth population 199, not 100. -/
theorem C6_step_scenario :
    OrganismState.new.step 1 =
      some (⟨199, 9901/10, 0, 1, 1/100, 1/2, 9967/10000,
             [199, 9901/10, 1/100]⟩, 9967/10000) ∧
    (9967/10000 : ℚ) =
      (min (199/100 : ℚ) 2 + min (9901/10000 : ℚ) 1
        + min (1/100 : ℚ) 1) / 3 ∧
    (9901/10 : ℚ) = 1000 - 199 * (1/10) * 1 + 10 * 1 := by
  refine ⟨?_, by norm_num [min_def], by norm_num⟩
  norm_num [OrganismState.step, OrganismState.new, setIdx?,
    OrganismState.calculate_adaptation_score, min_def, max_def]

/-- C7 (confirmed): restoring the snapshot of any state leaves every
documented scalar field (population, energy, generation, age,
mutation_rate, selection_pressure, adaptation_score) unchanged;
state_vector is excluded from the round-trip. -/
theorem C7_snapshot_roundtrip (s : OrganismState) :
    (s.load_snapshot s.get_snapshot).population = s.population ∧
    (s.load_snapshot s.get_snapshot).energy = s.energy ∧
    (s.load_snapshot s.get_snapshot).generation = s.generation ∧
    (s.load_snapshot s.get_snapshot).age = s.age ∧
    (s.load_snapshot s.get_snapshot).mutation_rate = s.mutation_rate ∧
    (s.load_snapshot s.get_snapshot).selection_pressure =
      s.selection_pressure ∧
    (s.load_snapshot s.get_snapshot).adaptation_score =
      s.adaptation_score :=
  ⟨rfl, rfl, rfl, rfl, rfl, rfl, rfl⟩

/-- C8 (confirmed): applying a rule whose id is not registered fails with
the rule-not-found error, and both the registry and the organism state come
back unchanged (the lookup happens before any mutation). -/
theorem C8_apply_rule_not_found (registry : RuleRegistry)
    (state : OrganismState) (rule_id : String) (params : List ℚ)
    (t0 t1 : ℚ) (h : registry.get_rule_code rule_id = none) :
    apply_rule registry state rule_id params t0 t1 =
      some (.error ("Rule not found: " ++ rule_id), registry, state) := by
  unfold apply_rule
  rw [h]

/-- C8 witness: the empty registry with id "unknown". -/
theorem C8_witness :
    apply_rule RuleRegistry.new OrganismState.new "unknown" [] 0 0 =
      some (.error ("Rule not found: " ++ "unknown"), RuleRegistry.new,
        OrganismState.new) :=
  C8_apply_rule_not_found _ _ _ _ _ _ rfl

/-- C9 (confirmed): register_rule fails exactly when the id is empty; on
success the rule is bound to a record with zeroed statistics and
created_at = now, every other binding is untouched, and the id is appended
to execution_order only when not already present (so re-registration keeps
the order, hence the id's position and the order's length, unchanged). -/
theorem C9_register_rule (reg : RuleRegistry) (id code : String)
    (now : Nat) :
    ((∃ e, reg.register_rule id code now = .error e) ↔ id = "") ∧
    (∀ reg', reg.register_rule id code now = .ok reg' →
      lookupRule reg'.rules id = some ⟨id, code, 0, 0, 0, now⟩ ∧
      (∀ id2, id2 ≠ id →
        lookupRule reg'.rules id2 = lookupRule reg.rules id2) ∧
      (id ∈ reg.execution_order →
        reg'.execution_order = reg.execution_order) ∧
      (id ∉ reg.execution_order →
        reg'.execution_order = reg.execution_order ++ [id])) := by
  by_cases hid : id = ""
  · constructor
    · exact ⟨fun _ => hid,
        fun _ => ⟨"Rule ID cannot be empty",
          by rw [RuleRegistry.register_rule, if_pos hid]⟩⟩
    · intro reg' h
      rw [RuleRegistry.register_rule, if_pos hid] at h
      exact absurd h (by simp)
  · constructor
    · constructor
      · rintro ⟨e, he⟩
        rw [RuleRegistry.register_rule, if_neg hid] at he
        exact absurd he (by simp)
      · intro h; exact absurd h hid
    · intro reg' h
      rw [RuleRegistry.register_rule, if_neg hid] at h
      simp only [Except.ok.injEq] at h
      subst h
      refine ⟨lookupRule_insertRule_self,
        fun id2 hne => lookupRule_insertRule_ne hne, ?_, ?_⟩
      · intro hin
        simp only [if_pos hin]
      · intro hin
        simp only [if_neg hin]

/-- C9 witness: registering "r1" in the empty registry at time 5. -/
theorem C9_witness :
    lookupRule ([("r1", ⟨"r1", "(noop)", 0, 0, 0, 5⟩)] :
        List (String × Rule)) "r1" = some ⟨"r1", "(noop)", 0, 0, 0, 5⟩ ∧
    (["r1"] : List String) = RuleRegistry.new.execution_order ++ ["r1"] := by
  have h := (C9_register_rule RuleRegistry.new "r1" "(noop)" 5).2
    ⟨[("r1", ⟨"r1", "(noop)", 0, 0, 0, 5⟩)], ["r1"]⟩
    (by simp [RuleRegistry.register_rule, insertRule, RuleRegistry.new])
  exact ⟨h.1, h.2.2.2 (by simp [RuleRegistry.new])⟩

/-- C10 (confirmed): set_state_vector with a vector of length at least 3
overwrites population, energy, mutation_rate verbatim from slots 0-2 with
no clamping, stores the vector wholesale, and leaves adaptation_score (and
every other field) untouched; with length below 3 it changes nothing. The
concrete part shows population -5 < 1, energy 20000 > 10000 and
mutation_rate 7 > 1 are all reachable through this public operation. -/
theorem C10_set_state_vector :
    (∀ (s : OrganismState) (v : List ℚ),
      (∀ h : 3 ≤ v.length,
        (s.set_state_vector v).population = v.get ⟨0, by omega⟩ ∧
        (s.set_state_vector v).energy = v.get ⟨1, by omega⟩ ∧
        (s.set_state_vector v).mutation_rate = v.get ⟨2, by omega⟩ ∧
        (s.set_state_vector v).state_vector = v ∧
        (s.set_state_vector v).adaptation_score = s.adaptation_score ∧
        (s.set_state_vector v).generation = s.generation ∧
        (s.set_state_vector v).age = s.age ∧
        (s.set_state_vector v).selection_pressure =
          s.selection_pressure) ∧
      (v.length < 3 → s.set_state_vector v = s)) ∧
    ((OrganismState.new.set_state_vector [-5, 20000, 7]).Reachable ∧
      (OrganismState.new.set_state_vector [-5, 20000, 7]).population = -5 ∧
      (OrganismState.new.set_state_vector [-5, 20000, 7]).energy = 20000 ∧
      (OrganismState.new.set_state_vector [-5, 20000, 7]).mutation_rate = 7 ∧
      ¬ (1 ≤ (-5 : ℚ)) ∧ ¬ ((20000 : ℚ) ≤ 10000) ∧ ¬ ((7 : ℚ) ≤ 1)) := by
  constructor
  · intro s v
    constructor
    · intro h
      rw [OrganismState.set_state_vector, dif_pos h]
      exact ⟨rfl, rfl, rfl, rfl, rfl, rfl, rfl, rfl⟩
    · intro h
      rw [OrganismState.set_state_vector, dif_neg (by omega)]
  · refine ⟨OrganismState.Reachable.set_state_vector _
      OrganismState.Reachable.new, ?_, ?_, ?_, by norm_num, by norm_num,
      by norm_num⟩ <;>
    norm_num [OrganismState.set_state_vector]

/-- C10 witness: both branches at concrete inputs — a length-3 vector
overwrites the scalars, a length-1 vector is a no-op. -/
theorem C10_witness :
    (OrganismState.new.set_state_vector [1, 2, 3]).population =
      ([1, 2, 3] : List ℚ).get ⟨0, by norm_num⟩ ∧
    OrganismState.new.set_state_vector [0] = OrganismState.new :=
  ⟨((C10_set_state_vector.1 OrganismState.new [1, 2, 3]).1
      (by norm_num)).1,
   (C10_set_state_vector.1 OrganismState.new [0]).2 (by norm_num)⟩
